import Mathlib

/-!
Verification of the XiaoXuan Core ISA crate (`anc-isa`): a shallow embedding
of `src/lib.rs` and `src/opcode.rs` together with proofs about the opcode
table, the version model, and the ISA-level execution contract described by
the repository's documentation.

Machine integers are embedded as `Nat`/`Int`; a Rust `u16` field becomes a
`Nat` together with a `< 2^16` bound where it matters.  Fallible operations
return `Option`.
-/

namespace AncIsa

/-! ## Semantic versions (`src/lib.rs`) -/

/-- `EffectiveVersion` from `src/lib.rs`: `major`, `minor`, `patch` are `u16`
fields, embedded as `Nat`. -/
structure EffectiveVersion where
  major : Nat
  minor : Nat
  patch : Nat
  deriving DecidableEq, Repr

/-- `VersionCompatibility` from `src/lib.rs`. -/
inductive VersionCompatibility where
  | Equals
  | GreaterThan
  | LessThan
  | Conflict
  deriving DecidableEq, Repr

/-- `EffectiveVersion::from_u64`: unpack `patch`, `minor`, `major` from the
low three 16-bit fields of a `u64`. -/
def from_u64 (value : Nat) : EffectiveVersion :=
  { patch := value &&& 0xffff
    minor := (value >>> 16) &&& 0xffff
    major := (value >>> 32) &&& 0xffff }

/-- `EffectiveVersion::to_u64`: pack `major`, `minor`, `patch` into a `u64`
by shifting and or-ing (`value = (((major << 16) | minor) << 16) | patch`). -/
def to_u64 (v : EffectiveVersion) : Nat :=
  let value := v.major
  let value := (value <<< 16) ||| v.minor
  let value := (value <<< 16) ||| v.patch
  value

/-- `EffectiveVersion::compatible` from `src/lib.rs`, translated branch by
branch. -/
def compatible (a b : EffectiveVersion) : VersionCompatibility :=
  if a.major ≠ b.major then
    VersionCompatibility.Conflict
  else if a.major = 0 then
    if a.minor ≠ b.minor then
      VersionCompatibility.Conflict
    else if a.patch > b.patch then
      VersionCompatibility.GreaterThan
    else if a.patch < b.patch then
      VersionCompatibility.LessThan
    else
      VersionCompatibility.Equals
  else
    if a.minor > b.minor then
      VersionCompatibility.GreaterThan
    else if a.minor < b.minor then
      VersionCompatibility.LessThan
    else if a.patch > b.patch then
      VersionCompatibility.GreaterThan
    else if a.patch < b.patch then
      VersionCompatibility.LessThan
    else
      VersionCompatibility.Equals

/-! ## Floating-point load validity (§4.2 of the spec; comment block of
`src/opcode.rs` around `data_load_f32`/`data_load_f64`) -/

/-- Exponent field of an f32 bit pattern: bits 30..23. -/
def f32_exponent (bits : Nat) : Nat := bits / 2 ^ 23 % 2 ^ 8

/-- Exponent field of an f64 bit pattern: bits 62..52. -/
def f64_exponent (bits : Nat) : Nat := bits / 2 ^ 52 % 2 ^ 11

/-- Modelled from the spec: the loader for f32 values is not in `src/`
(only the opcode table and its comments are); the comment block in
`src/opcode.rs` specifies the check performed when loading an f32 bit
pattern: pass if the exponent field is between `00000001` and `11111110`,
pass if the exponent is zero, fail otherwise. -/
def check_f32 (bits : Nat) : Bool :=
  if 1 ≤ f32_exponent bits ∧ f32_exponent bits ≤ 0xfe then true
  else if f32_exponent bits = 0 then true
  else false

/-- Modelled from the spec: the same validity check for f64 bit patterns,
with the 11-bit exponent field. -/
def check_f64 (bits : Nat) : Bool :=
  if 1 ≤ f64_exponent bits ∧ f64_exponent bits ≤ 0x7fe then true
  else if f64_exponent bits = 0 then true
  else false

/-- Modelled from the spec: loading an f32 bit pattern (from local, data or
memory) yields the pattern unchanged when the validity check passes and
fails otherwise. -/
def load_f32 (bits : Nat) : Option Nat :=
  if check_f32 bits then some bits else none

/-- Modelled from the spec: loading an f64 bit pattern. -/
def load_f64 (bits : Nat) : Option Nat :=
  if check_f64 bits then some bits else none

/-! ## The opcode table (`src/opcode.rs`) -/

/-- `MAX_OPCODE_NUMBER` from `src/opcode.rs`. -/
def MAX_OPCODE_NUMBER : Nat := 0x0c00

/-- The `Opcode` enum of `src/opcode.rs`, all 251 variants in source
order (the Rust variant `end` is rendered `end_`, and `break_` keeps its
source spelling). -/
inductive Opcode where
  | nop
  | imm_i32
  | imm_i64
  | imm_f32
  | imm_f64
  | local_load_i64
  | local_load_i32_s
  | local_load_i32_u
  | local_load_i16_s
  | local_load_i16_u
  | local_load_i8_s
  | local_load_i8_u
  | local_load_f64
  | local_load_f32
  | local_store_i64
  | local_store_i32
  | local_store_i16
  | local_store_i8
  | local_store_f64
  | local_store_f32
  | data_load_i64
  | data_load_i32_s
  | data_load_i32_u
  | data_load_i16_s
  | data_load_i16_u
  | data_load_i8_s
  | data_load_i8_u
  | data_load_f64
  | data_load_f32
  | data_store_i64
  | data_store_i32
  | data_store_i16
  | data_store_i8
  | data_store_f64
  | data_store_f32
  | data_load_extend_i64
  | data_load_extend_i32_s
  | data_load_extend_i32_u
  | data_load_extend_i16_s
  | data_load_extend_i16_u
  | data_load_extend_i8_s
  | data_load_extend_i8_u
  | data_load_extend_f64
  | data_load_extend_f32
  | data_store_extend_i64
  | data_store_extend_i32
  | data_store_extend_i16
  | data_store_extend_i8
  | data_store_extend_f64
  | data_store_extend_f32
  | data_load_dynamic_i64
  | data_load_dynamic_i32_s
  | data_load_dynamic_i32_u
  | data_load_dynamic_i16_s
  | data_load_dynamic_i16_u
  | data_load_dynamic_i8_s
  | data_load_dynamic_i8_u
  | data_load_dynamic_f64
  | data_load_dynamic_f32
  | data_store_dynamic_i64
  | data_store_dynamic_i32
  | data_store_dynamic_i16
  | data_store_dynamic_i8
  | data_store_dynamic_f64
  | data_store_dynamic_f32
  | add_i32
  | sub_i32
  | add_imm_i32
  | sub_imm_i32
  | mul_i32
  | div_i32_s
  | div_i32_u
  | rem_i32_s
  | rem_i32_u
  | add_i64
  | sub_i64
  | add_imm_i64
  | sub_imm_i64
  | mul_i64
  | div_i64_s
  | div_i64_u
  | rem_i64_s
  | rem_i64_u
  | add_f32
  | sub_f32
  | mul_f32
  | div_f32
  | add_f64
  | sub_f64
  | mul_f64
  | div_f64
  | and
  | or
  | xor
  | not
  | shift_left_i32
  | shift_right_i32_s
  | shift_right_i32_u
  | rotate_left_i32
  | rotate_right_i32
  | count_leading_zeros_i32
  | count_leading_ones_i32
  | count_trailing_zeros_i32
  | count_ones_i32
  | shift_left_i64
  | shift_right_i64_s
  | shift_right_i64_u
  | rotate_left_i64
  | rotate_right_i64
  | count_leading_zeros_i64
  | count_leading_ones_i64
  | count_trailing_zeros_i64
  | count_ones_i64
  | abs_i32
  | neg_i32
  | abs_i64
  | neg_i64
  | abs_f32
  | neg_f32
  | copysign_f32
  | sqrt_f32
  | min_f32
  | max_f32
  | ceil_f32
  | floor_f32
  | round_half_away_from_zero_f32
  | round_half_to_even_f32
  | trunc_f32
  | fract_f32
  | cbrt_f32
  | exp_f32
  | exp2_f32
  | ln_f32
  | log2_f32
  | log10_f32
  | sin_f32
  | cos_f32
  | tan_f32
  | asin_f32
  | acos_f32
  | atan_f32
  | pow_f32
  | log_f32
  | abs_f64
  | neg_f64
  | copysign_f64
  | sqrt_f64
  | min_f64
  | max_f64
  | ceil_f64
  | floor_f64
  | round_half_away_from_zero_f64
  | round_half_to_even_f64
  | trunc_f64
  | fract_f64
  | cbrt_f64
  | exp_f64
  | exp2_f64
  | ln_f64
  | log2_f64
  | log10_f64
  | sin_f64
  | cos_f64
  | tan_f64
  | asin_f64
  | acos_f64
  | atan_f64
  | pow_f64
  | log_f64
  | truncate_i64_to_i32
  | extend_i32_s_to_i64
  | extend_i32_u_to_i64
  | demote_f64_to_f32
  | promote_f32_to_f64
  | convert_f32_to_i32_s
  | convert_f32_to_i32_u
  | convert_f64_to_i32_s
  | convert_f64_to_i32_u
  | convert_f32_to_i64_s
  | convert_f32_to_i64_u
  | convert_f64_to_i64_s
  | convert_f64_to_i64_u
  | convert_i32_s_to_f32
  | convert_i32_u_to_f32
  | convert_i64_s_to_f32
  | convert_i64_u_to_f32
  | convert_i32_s_to_f64
  | convert_i32_u_to_f64
  | convert_i64_s_to_f64
  | convert_i64_u_to_f64
  | eqz_i32
  | nez_i32
  | eq_i32
  | ne_i32
  | lt_i32_s
  | lt_i32_u
  | gt_i32_s
  | gt_i32_u
  | le_i32_s
  | le_i32_u
  | ge_i32_s
  | ge_i32_u
  | eqz_i64
  | nez_i64
  | eq_i64
  | ne_i64
  | lt_i64_s
  | lt_i64_u
  | gt_i64_s
  | gt_i64_u
  | le_i64_s
  | le_i64_u
  | ge_i64_s
  | ge_i64_u
  | eq_f32
  | ne_f32
  | lt_f32
  | gt_f32
  | le_f32
  | ge_f32
  | eq_f64
  | ne_f64
  | lt_f64
  | gt_f64
  | le_f64
  | ge_f64
  | end_
  | block
  | break_
  | recur
  | block_alt
  | break_alt
  | block_nez
  | call
  | call_dynamic
  | envcall
  | syscall
  | extcall
  | memory_allocate
  | memory_resize
  | memory_free
  | memory_fill
  | memory_copy
  | terminate
  | get_function
  | get_data
  | host_addr_function
  | host_addr_function_dynamic
  | host_addr_data
  | host_addr_data_extend
  | host_addr_data_dynamic
  deriving DecidableEq, Repr

/-- The `u16` discriminant of each `Opcode` variant, computed by Rust's
rules: an explicit `= value` resets the counter, every other variant is
the previous discriminant plus one. -/
def opcodeValue : Opcode → Nat
  | .nop => 0x0100
  | .imm_i32 => 0x0101
  | .imm_i64 => 0x0102
  | .imm_f32 => 0x0103
  | .imm_f64 => 0x0104
  | .local_load_i64 => 0x0200
  | .local_load_i32_s => 0x0201
  | .local_load_i32_u => 0x0202
  | .local_load_i16_s => 0x0203
  | .local_load_i16_u => 0x0204
  | .local_load_i8_s => 0x0205
  | .local_load_i8_u => 0x0206
  | .local_load_f64 => 0x0207
  | .local_load_f32 => 0x0208
  | .local_store_i64 => 0x0209
  | .local_store_i32 => 0x020a
  | .local_store_i16 => 0x020b
  | .local_store_i8 => 0x020c
  | .local_store_f64 => 0x020d
  | .local_store_f32 => 0x020e
  | .data_load_i64 => 0x0300
  | .data_load_i32_s => 0x0301
  | .data_load_i32_u => 0x0302
  | .data_load_i16_s => 0x0303
  | .data_load_i16_u => 0x0304
  | .data_load_i8_s => 0x0305
  | .data_load_i8_u => 0x0306
  | .data_load_f64 => 0x0307
  | .data_load_f32 => 0x0308
  | .data_store_i64 => 0x0309
  | .data_store_i32 => 0x030a
  | .data_store_i16 => 0x030b
  | .data_store_i8 => 0x030c
  | .data_store_f64 => 0x030d
  | .data_store_f32 => 0x030e
  | .data_load_extend_i64 => 0x030f
  | .data_load_extend_i32_s => 0x0310
  | .data_load_extend_i32_u => 0x0311
  | .data_load_extend_i16_s => 0x0312
  | .data_load_extend_i16_u => 0x0313
  | .data_load_extend_i8_s => 0x0314
  | .data_load_extend_i8_u => 0x0315
  | .data_load_extend_f64 => 0x0316
  | .data_load_extend_f32 => 0x0317
  | .data_store_extend_i64 => 0x0318
  | .data_store_extend_i32 => 0x0319
  | .data_store_extend_i16 => 0x031a
  | .data_store_extend_i8 => 0x031b
  | .data_store_extend_f64 => 0x031c
  | .data_store_extend_f32 => 0x031d
  | .data_load_dynamic_i64 => 0x031e
  | .data_load_dynamic_i32_s => 0x031f
  | .data_load_dynamic_i32_u => 0x0320
  | .data_load_dynamic_i16_s => 0x0321
  | .data_load_dynamic_i16_u => 0x0322
  | .data_load_dynamic_i8_s => 0x0323
  | .data_load_dynamic_i8_u => 0x0324
  | .data_load_dynamic_f64 => 0x0325
  | .data_load_dynamic_f32 => 0x0326
  | .data_store_dynamic_i64 => 0x0327
  | .data_store_dynamic_i32 => 0x0328
  | .data_store_dynamic_i16 => 0x0329
  | .data_store_dynamic_i8 => 0x032a
  | .data_store_dynamic_f64 => 0x032b
  | .data_store_dynamic_f32 => 0x032c
  | .add_i32 => 0x0400
  | .sub_i32 => 0x0401
  | .add_imm_i32 => 0x0402
  | .sub_imm_i32 => 0x0403
  | .mul_i32 => 0x0404
  | .div_i32_s => 0x0405
  | .div_i32_u => 0x0406
  | .rem_i32_s => 0x0407
  | .rem_i32_u => 0x0408
  | .add_i64 => 0x0409
  | .sub_i64 => 0x040a
  | .add_imm_i64 => 0x040b
  | .sub_imm_i64 => 0x040c
  | .mul_i64 => 0x040d
  | .div_i64_s => 0x040e
  | .div_i64_u => 0x040f
  | .rem_i64_s => 0x0410
  | .rem_i64_u => 0x0411
  | .add_f32 => 0x0412
  | .sub_f32 => 0x0413
  | .mul_f32 => 0x0414
  | .div_f32 => 0x0415
  | .add_f64 => 0x0416
  | .sub_f64 => 0x0417
  | .mul_f64 => 0x0418
  | .div_f64 => 0x0419
  | .and => 0x0500
  | .or => 0x0501
  | .xor => 0x0502
  | .not => 0x0503
  | .shift_left_i32 => 0x0504
  | .shift_right_i32_s => 0x0505
  | .shift_right_i32_u => 0x0506
  | .rotate_left_i32 => 0x0507
  | .rotate_right_i32 => 0x0508
  | .count_leading_zeros_i32 => 0x0509
  | .count_leading_ones_i32 => 0x050a
  | .count_trailing_zeros_i32 => 0x050b
  | .count_ones_i32 => 0x050c
  | .shift_left_i64 => 0x050d
  | .shift_right_i64_s => 0x050e
  | .shift_right_i64_u => 0x050f
  | .rotate_left_i64 => 0x0510
  | .rotate_right_i64 => 0x0511
  | .count_leading_zeros_i64 => 0x0512
  | .count_leading_ones_i64 => 0x0513
  | .count_trailing_zeros_i64 => 0x0514
  | .count_ones_i64 => 0x0515
  | .abs_i32 => 0x0600
  | .neg_i32 => 0x0601
  | .abs_i64 => 0x0602
  | .neg_i64 => 0x0603
  | .abs_f32 => 0x0604
  | .neg_f32 => 0x0605
  | .copysign_f32 => 0x0606
  | .sqrt_f32 => 0x0607
  | .min_f32 => 0x0608
  | .max_f32 => 0x0609
  | .ceil_f32 => 0x060a
  | .floor_f32 => 0x060b
  | .round_half_away_from_zero_f32 => 0x060c
  | .round_half_to_even_f32 => 0x060d
  | .trunc_f32 => 0x060e
  | .fract_f32 => 0x060f
  | .cbrt_f32 => 0x0610
  | .exp_f32 => 0x0611
  | .exp2_f32 => 0x0612
  | .ln_f32 => 0x0613
  | .log2_f32 => 0x0614
  | .log10_f32 => 0x0615
  | .sin_f32 => 0x0616
  | .cos_f32 => 0x0617
  | .tan_f32 => 0x0618
  | .asin_f32 => 0x0619
  | .acos_f32 => 0x061a
  | .atan_f32 => 0x061b
  | .pow_f32 => 0x061c
  | .log_f32 => 0x061d
  | .abs_f64 => 0x061e
  | .neg_f64 => 0x061f
  | .copysign_f64 => 0x0620
  | .sqrt_f64 => 0x0621
  | .min_f64 => 0x0622
  | .max_f64 => 0x0623
  | .ceil_f64 => 0x0624
  | .floor_f64 => 0x0625
  | .round_half_away_from_zero_f64 => 0x0626
  | .round_half_to_even_f64 => 0x0627
  | .trunc_f64 => 0x0628
  | .fract_f64 => 0x0629
  | .cbrt_f64 => 0x062a
  | .exp_f64 => 0x062b
  | .exp2_f64 => 0x062c
  | .ln_f64 => 0x062d
  | .log2_f64 => 0x062e
  | .log10_f64 => 0x062f
  | .sin_f64 => 0x0630
  | .cos_f64 => 0x0631
  | .tan_f64 => 0x0632
  | .asin_f64 => 0x0633
  | .acos_f64 => 0x0634
  | .atan_f64 => 0x0635
  | .pow_f64 => 0x0636
  | .log_f64 => 0x0637
  | .truncate_i64_to_i32 => 0x0700
  | .extend_i32_s_to_i64 => 0x0701
  | .extend_i32_u_to_i64 => 0x0702
  | .demote_f64_to_f32 => 0x0703
  | .promote_f32_to_f64 => 0x0704
  | .convert_f32_to_i32_s => 0x0705
  | .convert_f32_to_i32_u => 0x0706
  | .convert_f64_to_i32_s => 0x0707
  | .convert_f64_to_i32_u => 0x0708
  | .convert_f32_to_i64_s => 0x0709
  | .convert_f32_to_i64_u => 0x070a
  | .convert_f64_to_i64_s => 0x070b
  | .convert_f64_to_i64_u => 0x070c
  | .convert_i32_s_to_f32 => 0x070d
  | .convert_i32_u_to_f32 => 0x070e
  | .convert_i64_s_to_f32 => 0x070f
  | .convert_i64_u_to_f32 => 0x0710
  | .convert_i32_s_to_f64 => 0x0711
  | .convert_i32_u_to_f64 => 0x0712
  | .convert_i64_s_to_f64 => 0x0713
  | .convert_i64_u_to_f64 => 0x0714
  | .eqz_i32 => 0x0800
  | .nez_i32 => 0x0801
  | .eq_i32 => 0x0802
  | .ne_i32 => 0x0803
  | .lt_i32_s => 0x0804
  | .lt_i32_u => 0x0805
  | .gt_i32_s => 0x0806
  | .gt_i32_u => 0x0807
  | .le_i32_s => 0x0808
  | .le_i32_u => 0x0809
  | .ge_i32_s => 0x080a
  | .ge_i32_u => 0x080b
  | .eqz_i64 => 0x080c
  | .nez_i64 => 0x080d
  | .eq_i64 => 0x080e
  | .ne_i64 => 0x080f
  | .lt_i64_s => 0x0810
  | .lt_i64_u => 0x0811
  | .gt_i64_s => 0x0812
  | .gt_i64_u => 0x0813
  | .le_i64_s => 0x0814
  | .le_i64_u => 0x0815
  | .ge_i64_s => 0x0816
  | .ge_i64_u => 0x0817
  | .eq_f32 => 0x0818
  | .ne_f32 => 0x0819
  | .lt_f32 => 0x081a
  | .gt_f32 => 0x081b
  | .le_f32 => 0x081c
  | .ge_f32 => 0x081d
  | .eq_f64 => 0x081e
  | .ne_f64 => 0x081f
  | .lt_f64 => 0x0820
  | .gt_f64 => 0x0821
  | .le_f64 => 0x0822
  | .ge_f64 => 0x0823
  | .end_ => 0x0900
  | .block => 0x0901
  | .break_ => 0x0902
  | .recur => 0x0903
  | .block_alt => 0x0904
  | .break_alt => 0x0905
  | .block_nez => 0x0906
  | .call => 0x0907
  | .call_dynamic => 0x0908
  | .envcall => 0x0909
  | .syscall => 0x090a
  | .extcall => 0x090b
  | .memory_allocate => 0x0a00
  | .memory_resize => 0x0a01
  | .memory_free => 0x0a02
  | .memory_fill => 0x0a03
  | .memory_copy => 0x0a04
  | .terminate => 0x0a05
  | .get_function => 0x0b00
  | .get_data => 0x0b01
  | .host_addr_function => 0x0b02
  | .host_addr_function_dynamic => 0x0b03
  | .host_addr_data => 0x0b04
  | .host_addr_data_extend => 0x0b05
  | .host_addr_data_dynamic => 0x0b06

/-- The eleven functional sections of the opcode table, as named by the
`// Category:` headers of `src/opcode.rs` (the sections enumerated in §4
and §6 of the spec). -/
inductive OpcodeSection where
  | fundamental
  | localVariable
  | data
  | arithmetic
  | bitwise
  | math
  | conversion
  | comparison
  | controlFlow
  | memory
  | machine
  deriving DecidableEq, Repr

/-- The functional section each variant is declared under in
`src/opcode.rs`, read off the `// Category:` header preceding it. -/
def sectionOf : Opcode → OpcodeSection
  | .nop => .fundamental
  | .imm_i32 => .fundamental
  | .imm_i64 => .fundamental
  | .imm_f32 => .fundamental
  | .imm_f64 => .fundamental
  | .local_load_i64 => .localVariable
  | .local_load_i32_s => .localVariable
  | .local_load_i32_u => .localVariable
  | .local_load_i16_s => .localVariable
  | .local_load_i16_u => .localVariable
  | .local_load_i8_s => .localVariable
  | .local_load_i8_u => .localVariable
  | .local_load_f64 => .localVariable
  | .local_load_f32 => .localVariable
  | .local_store_i64 => .localVariable
  | .local_store_i32 => .localVariable
  | .local_store_i16 => .localVariable
  | .local_store_i8 => .localVariable
  | .local_store_f64 => .localVariable
  | .local_store_f32 => .localVariable
  | .data_load_i64 => .data
  | .data_load_i32_s => .data
  | .data_load_i32_u => .data
  | .data_load_i16_s => .data
  | .data_load_i16_u => .data
  | .data_load_i8_s => .data
  | .data_load_i8_u => .data
  | .data_load_f64 => .data
  | .data_load_f32 => .data
  | .data_store_i64 => .data
  | .data_store_i32 => .data
  | .data_store_i16 => .data
  | .data_store_i8 => .data
  | .data_store_f64 => .data
  | .data_store_f32 => .data
  | .data_load_extend_i64 => .data
  | .data_load_extend_i32_s => .data
  | .data_load_extend_i32_u => .data
  | .data_load_extend_i16_s => .data
  | .data_load_extend_i16_u => .data
  | .data_load_extend_i8_s => .data
  | .data_load_extend_i8_u => .data
  | .data_load_extend_f64 => .data
  | .data_load_extend_f32 => .data
  | .data_store_extend_i64 => .data
  | .data_store_extend_i32 => .data
  | .data_store_extend_i16 => .data
  | .data_store_extend_i8 => .data
  | .data_store_extend_f64 => .data
  | .data_store_extend_f32 => .data
  | .data_load_dynamic_i64 => .data
  | .data_load_dynamic_i32_s => .data
  | .data_load_dynamic_i32_u => .data
  | .data_load_dynamic_i16_s => .data
  | .data_load_dynamic_i16_u => .data
  | .data_load_dynamic_i8_s => .data
  | .data_load_dynamic_i8_u => .data
  | .data_load_dynamic_f64 => .data
  | .data_load_dynamic_f32 => .data
  | .data_store_dynamic_i64 => .data
  | .data_store_dynamic_i32 => .data
  | .data_store_dynamic_i16 => .data
  | .data_store_dynamic_i8 => .data
  | .data_store_dynamic_f64 => .data
  | .data_store_dynamic_f32 => .data
  | .add_i32 => .arithmetic
  | .sub_i32 => .arithmetic
  | .add_imm_i32 => .arithmetic
  | .sub_imm_i32 => .arithmetic
  | .mul_i32 => .arithmetic
  | .div_i32_s => .arithmetic
  | .div_i32_u => .arithmetic
  | .rem_i32_s => .arithmetic
  | .rem_i32_u => .arithmetic
  | .add_i64 => .arithmetic
  | .sub_i64 => .arithmetic
  | .add_imm_i64 => .arithmetic
  | .sub_imm_i64 => .arithmetic
  | .mul_i64 => .arithmetic
  | .div_i64_s => .arithmetic
  | .div_i64_u => .arithmetic
  | .rem_i64_s => .arithmetic
  | .rem_i64_u => .arithmetic
  | .add_f32 => .arithmetic
  | .sub_f32 => .arithmetic
  | .mul_f32 => .arithmetic
  | .div_f32 => .arithmetic
  | .add_f64 => .arithmetic
  | .sub_f64 => .arithmetic
  | .mul_f64 => .arithmetic
  | .div_f64 => .arithmetic
  | .and => .bitwise
  | .or => .bitwise
  | .xor => .bitwise
  | .not => .bitwise
  | .shift_left_i32 => .bitwise
  | .shift_right_i32_s => .bitwise
  | .shift_right_i32_u => .bitwise
  | .rotate_left_i32 => .bitwise
  | .rotate_right_i32 => .bitwise
  | .count_leading_zeros_i32 => .bitwise
  | .count_leading_ones_i32 => .bitwise
  | .count_trailing_zeros_i32 => .bitwise
  | .count_ones_i32 => .bitwise
  | .shift_left_i64 => .bitwise
  | .shift_right_i64_s => .bitwise
  | .shift_right_i64_u => .bitwise
  | .rotate_left_i64 => .bitwise
  | .rotate_right_i64 => .bitwise
  | .count_leading_zeros_i64 => .bitwise
  | .count_leading_ones_i64 => .bitwise
  | .count_trailing_zeros_i64 => .bitwise
  | .count_ones_i64 => .bitwise
  | .abs_i32 => .math
  | .neg_i32 => .math
  | .abs_i64 => .math
  | .neg_i64 => .math
  | .abs_f32 => .math
  | .neg_f32 => .math
  | .copysign_f32 => .math
  | .sqrt_f32 => .math
  | .min_f32 => .math
  | .max_f32 => .math
  | .ceil_f32 => .math
  | .floor_f32 => .math
  | .round_half_away_from_zero_f32 => .math
  | .round_half_to_even_f32 => .math
  | .trunc_f32 => .math
  | .fract_f32 => .math
  | .cbrt_f32 => .math
  | .exp_f32 => .math
  | .exp2_f32 => .math
  | .ln_f32 => .math
  | .log2_f32 => .math
  | .log10_f32 => .math
  | .sin_f32 => .math
  | .cos_f32 => .math
  | .tan_f32 => .math
  | .asin_f32 => .math
  | .acos_f32 => .math
  | .atan_f32 => .math
  | .pow_f32 => .math
  | .log_f32 => .math
  | .abs_f64 => .math
  | .neg_f64 => .math
  | .copysign_f64 => .math
  | .sqrt_f64 => .math
  | .min_f64 => .math
  | .max_f64 => .math
  | .ceil_f64 => .math
  | .floor_f64 => .math
  | .round_half_away_from_zero_f64 => .math
  | .round_half_to_even_f64 => .math
  | .trunc_f64 => .math
  | .fract_f64 => .math
  | .cbrt_f64 => .math
  | .exp_f64 => .math
  | .exp2_f64 => .math
  | .ln_f64 => .math
  | .log2_f64 => .math
  | .log10_f64 => .math
  | .sin_f64 => .math
  | .cos_f64 => .math
  | .tan_f64 => .math
  | .asin_f64 => .math
  | .acos_f64 => .math
  | .atan_f64 => .math
  | .pow_f64 => .math
  | .log_f64 => .math
  | .truncate_i64_to_i32 => .conversion
  | .extend_i32_s_to_i64 => .conversion
  | .extend_i32_u_to_i64 => .conversion
  | .demote_f64_to_f32 => .conversion
  | .promote_f32_to_f64 => .conversion
  | .convert_f32_to_i32_s => .conversion
  | .convert_f32_to_i32_u => .conversion
  | .convert_f64_to_i32_s => .conversion
  | .convert_f64_to_i32_u => .conversion
  | .convert_f32_to_i64_s => .conversion
  | .convert_f32_to_i64_u => .conversion
  | .convert_f64_to_i64_s => .conversion
  | .convert_f64_to_i64_u => .conversion
  | .convert_i32_s_to_f32 => .conversion
  | .convert_i32_u_to_f32 => .conversion
  | .convert_i64_s_to_f32 => .conversion
  | .convert_i64_u_to_f32 => .conversion
  | .convert_i32_s_to_f64 => .conversion
  | .convert_i32_u_to_f64 => .conversion
  | .convert_i64_s_to_f64 => .conversion
  | .convert_i64_u_to_f64 => .conversion
  | .eqz_i32 => .comparison
  | .nez_i32 => .comparison
  | .eq_i32 => .comparison
  | .ne_i32 => .comparison
  | .lt_i32_s => .comparison
  | .lt_i32_u => .comparison
  | .gt_i32_s => .comparison
  | .gt_i32_u => .comparison
  | .le_i32_s => .comparison
  | .le_i32_u => .comparison
  | .ge_i32_s => .comparison
  | .ge_i32_u => .comparison
  | .eqz_i64 => .comparison
  | .nez_i64 => .comparison
  | .eq_i64 => .comparison
  | .ne_i64 => .comparison
  | .lt_i64_s => .comparison
  | .lt_i64_u => .comparison
  | .gt_i64_s => .comparison
  | .gt_i64_u => .comparison
  | .le_i64_s => .comparison
  | .le_i64_u => .comparison
  | .ge_i64_s => .comparison
  | .ge_i64_u => .comparison
  | .eq_f32 => .comparison
  | .ne_f32 => .comparison
  | .lt_f32 => .comparison
  | .gt_f32 => .comparison
  | .le_f32 => .comparison
  | .ge_f32 => .comparison
  | .eq_f64 => .comparison
  | .ne_f64 => .comparison
  | .lt_f64 => .comparison
  | .gt_f64 => .comparison
  | .le_f64 => .comparison
  | .ge_f64 => .comparison
  | .end_ => .controlFlow
  | .block => .controlFlow
  | .break_ => .controlFlow
  | .recur => .controlFlow
  | .block_alt => .controlFlow
  | .break_alt => .controlFlow
  | .block_nez => .controlFlow
  | .call => .controlFlow
  | .call_dynamic => .controlFlow
  | .envcall => .controlFlow
  | .syscall => .controlFlow
  | .extcall => .controlFlow
  | .memory_allocate => .memory
  | .memory_resize => .memory
  | .memory_free => .memory
  | .memory_fill => .memory
  | .memory_copy => .memory
  | .terminate => .machine
  | .get_function => .machine
  | .get_data => .machine
  | .host_addr_function => .machine
  | .host_addr_function_dynamic => .machine
  | .host_addr_data => .machine
  | .host_addr_data_extend => .machine
  | .host_addr_data_dynamic => .machine

/-- The high byte of an opcode value (the spec's category byte). -/
def highByte (value : Nat) : Nat := value / 0x100

/-- `Opcode::get_name` from `src/opcode.rs`, every string copied
verbatim from the source. -/
def get_name : Opcode → String
  | .nop => "nop"
  | .imm_i32 => "imm_i32"
  | .imm_i64 => "imm_i64"
  | .imm_f32 => "imm_f32"
  | .imm_f64 => "imm_f64"
  | .local_load_i64 => "local_load_64"
  | .local_load_i32_s => "local_load_i32_s"
  | .local_load_i32_u => "local_load_i32_u"
  | .local_load_i16_s => "local_load_i16_s"
  | .local_load_i16_u => "local_load_i16_u"
  | .local_load_i8_s => "local_load_i8_s"
  | .local_load_i8_u => "local_load_i8_u"
  | .local_load_f64 => "local_load_f64"
  | .local_load_f32 => "local_load_f32"
  | .local_store_i64 => "local_store_i64"
  | .local_store_i32 => "local_store_i32"
  | .local_store_i16 => "local_store_i16"
  | .local_store_i8 => "local_store_i8"
  | .local_store_f64 => "local_store_f64"
  | .local_store_f32 => "local_store_f32"
  | .data_load_i64 => "data_load_i64"
  | .data_load_i32_s => "data_load_i32_s"
  | .data_load_i32_u => "data_load_i32_u"
  | .data_load_i16_s => "data_load_i16_s"
  | .data_load_i16_u => "data_load_i16_u"
  | .data_load_i8_s => "data_load_i8_s"
  | .data_load_i8_u => "data_load_i8_u"
  | .data_load_f64 => "data_load_f64"
  | .data_load_f32 => "data_load_f32"
  | .data_store_i64 => "data_store_i64"
  | .data_store_i32 => "data_store_i32"
  | .data_store_i16 => "data_store_i16"
  | .data_store_i8 => "data_store_i8"
  | .data_store_f64 => "data_store_f64"
  | .data_store_f32 => "data_store_f32"
  | .data_load_extend_i64 => "data_load_extend_i64"
  | .data_load_extend_i32_s => "data_load_extend_i32_s"
  | .data_load_extend_i32_u => "data_load_extend_i32_u"
  | .data_load_extend_i16_s => "data_load_extend_i16_s"
  | .data_load_extend_i16_u => "data_load_extend_i16_u"
  | .data_load_extend_i8_s => "data_load_extend_i8_s"
  | .data_load_extend_i8_u => "data_load_extend_i8_u"
  | .data_load_extend_f64 => "data_load_extend_f64"
  | .data_load_extend_f32 => "data_load_extend_f32"
  | .data_store_extend_i64 => "data_store_extend_i64"
  | .data_store_extend_i32 => "data_store_extend_i32"
  | .data_store_extend_i16 => "data_store_extend_i16"
  | .data_store_extend_i8 => "data_store_extend_i8"
  | .data_store_extend_f64 => "data_store_extend_f64"
  | .data_store_extend_f32 => "data_store_extend_f32"
  | .data_load_dynamic_i64 => "data_load_dynamic_i64"
  | .data_load_dynamic_i32_s => "data_load_dynamic_i32_s"
  | .data_load_dynamic_i32_u => "data_load_dynamic_i32_u"
  | .data_load_dynamic_i16_s => "data_load_dynamic_i16_s"
  | .data_load_dynamic_i16_u => "data_load_dynamic_i16_u"
  | .data_load_dynamic_i8_s => "data_load_dynamic_i8_s"
  | .data_load_dynamic_i8_u => "data_load_dynamic_i8_u"
  | .data_load_dynamic_f64 => "data_load_dynamic_f64"
  | .data_load_dynamic_f32 => "data_load_dynamic_f32"
  | .data_store_dynamic_i64 => "data_store_dynamic_i64"
  | .data_store_dynamic_i32 => "data_store_dynamic_i32"
  | .data_store_dynamic_i16 => "data_store_dynamic_i16"
  | .data_store_dynamic_i8 => "data_store_dynamic_i8"
  | .data_store_dynamic_f64 => "data_store_dynamic_f64"
  | .data_store_dynamic_f32 => "data_store_dynamic_f32"
  | .add_i32 => "add_i32"
  | .sub_i32 => "sub_i32"
  | .add_imm_i32 => "add_imm_i32"
  | .sub_imm_i32 => "sub_imm_i32"
  | .mul_i32 => "mul_i32"
  | .div_i32_s => "div_i32_s"
  | .div_i32_u => "div_i32_u"
  | .rem_i32_s => "rem_i32_s"
  | .rem_i32_u => "rem_i32_u"
  | .add_i64 => "add_i64"
  | .sub_i64 => "sub_i64"
  | .add_imm_i64 => "add_imm_i64"
  | .sub_imm_i64 => "sub_imm_i64"
  | .mul_i64 => "mul_i64"
  | .div_i64_s => "div_i64_s"
  | .div_i64_u => "div_i64_u"
  | .rem_i64_s => "rem_i64_s"
  | .rem_i64_u => "rem_i64_u"
  | .add_f32 => "add_f32"
  | .sub_f32 => "sub_f32"
  | .mul_f32 => "mul_f32"
  | .div_f32 => "div_f32"
  | .add_f64 => "add_f64"
  | .sub_f64 => "sub_f64"
  | .mul_f64 => "mul_f64"
  | .div_f64 => "div_f64"
  | .and => "and"
  | .or => "or"
  | .xor => "xor"
  | .not => "not"
  | .shift_left_i32 => "shift_left_i32"
  | .shift_right_i32_s => "shift_right_i32_s"
  | .shift_right_i32_u => "shift_right_i32_u"
  | .rotate_left_i32 => "rotate_left_i32"
  | .rotate_right_i32 => "rotate_right_i32"
  | .count_leading_zeros_i32 => "count_leading_zeros_i32"
  | .count_leading_ones_i32 => "count_leading_ones_i32"
  | .count_trailing_zeros_i32 => "count_trailing_zeros_i32"
  | .count_ones_i32 => "count_ones_i32"
  | .shift_left_i64 => "shift_left_i64"
  | .shift_right_i64_s => "shift_right_i64_s"
  | .shift_right_i64_u => "shift_right_i64_u"
  | .rotate_left_i64 => "rotate_left_i64"
  | .rotate_right_i64 => "rotate_right_i64"
  | .count_leading_zeros_i64 => "count_leading_zeros_i64"
  | .count_leading_ones_i64 => "count_leading_ones_i64"
  | .count_trailing_zeros_i64 => "count_trailing_zeros_i64"
  | .count_ones_i64 => "count_ones_i64"
  | .abs_i32 => "abs_i32"
  | .neg_i32 => "neg_i32"
  | .abs_i64 => "abs_i64"
  | .neg_i64 => "neg_i64"
  | .abs_f32 => "abs_f32"
  | .neg_f32 => "neg_f32"
  | .copysign_f32 => "copysign_f32"
  | .sqrt_f32 => "sqrt_f32"
  | .min_f32 => "min_f32"
  | .max_f32 => "max_f32"
  | .ceil_f32 => "ceil_f32"
  | .floor_f32 => "floor_f32"
  | .round_half_away_from_zero_f32 => "round_half_away_from_zero_f32"
  | .round_half_to_even_f32 => "round_half_to_even_f32"
  | .trunc_f32 => "trunc_f32"
  | .fract_f32 => "fract_f32"
  | .cbrt_f32 => "cbrt_f32"
  | .exp_f32 => "exp_f32"
  | .exp2_f32 => "exp2_f32"
  | .ln_f32 => "ln_f32"
  | .log2_f32 => "log2_f32"
  | .log10_f32 => "log10_f32"
  | .sin_f32 => "sin_f32"
  | .cos_f32 => "cos_f32"
  | .tan_f32 => "tan_f32"
  | .asin_f32 => "asin_f32"
  | .acos_f32 => "acos_f32"
  | .atan_f32 => "atan_f32"
  | .pow_f32 => "pow_f32"
  | .log_f32 => "log_f32"
  | .abs_f64 => "abs_f64"
  | .neg_f64 => "neg_f64"
  | .copysign_f64 => "copysign_f64"
  | .sqrt_f64 => "sqrt_f64"
  | .min_f64 => "min_f64"
  | .max_f64 => "max_f64"
  | .ceil_f64 => "ceil_f64"
  | .floor_f64 => "floor_f64"
  | .round_half_away_from_zero_f64 => "round_half_away_from_zero_f64"
  | .round_half_to_even_f64 => "round_half_to_even_f64"
  | .trunc_f64 => "trunc_f64"
  | .fract_f64 => "fract_f64"
  | .cbrt_f64 => "cbrt_f64"
  | .exp_f64 => "exp_f64"
  | .exp2_f64 => "exp2_f64"
  | .ln_f64 => "ln_f64"
  | .log2_f64 => "log2_f64"
  | .log10_f64 => "log10_f64"
  | .sin_f64 => "sin_f64"
  | .cos_f64 => "cos_f64"
  | .tan_f64 => "tan_f64"
  | .asin_f64 => "asin_f64"
  | .acos_f64 => "acos_f64"
  | .atan_f64 => "atan_f64"
  | .pow_f64 => "pow_f64"
  | .log_f64 => "log_f64"
  | .truncate_i64_to_i32 => "truncate_i64_to_i32"
  | .extend_i32_s_to_i64 => "extend_i32_s_to_i64"
  | .extend_i32_u_to_i64 => "extend_i32_u_to_i64"
  | .demote_f64_to_f32 => "demote_f64_to_f32"
  | .promote_f32_to_f64 => "promote_f32_to_f64"
  | .convert_f32_to_i32_s => "convert_f32_to_i32_s"
  | .convert_f32_to_i32_u => "convert_f32_to_i32_u"
  | .convert_f64_to_i32_s => "convert_f64_to_i32_s"
  | .convert_f64_to_i32_u => "convert_f64_to_i32_u"
  | .convert_f32_to_i64_s => "convert_f32_to_i64_s"
  | .convert_f32_to_i64_u => "convert_f32_to_i64_u"
  | .convert_f64_to_i64_s => "convert_f64_to_i64_s"
  | .convert_f64_to_i64_u => "convert_f64_to_i64_u"
  | .convert_i32_s_to_f32 => "convert_i32_s_to_f32"
  | .convert_i32_u_to_f32 => "convert_i32_u_to_f32"
  | .convert_i64_s_to_f32 => "convert_i64_s_to_f32"
  | .convert_i64_u_to_f32 => "convert_i64_u_to_f32"
  | .convert_i32_s_to_f64 => "convert_i32_s_to_f64"
  | .convert_i32_u_to_f64 => "convert_i32_u_to_f64"
  | .convert_i64_s_to_f64 => "convert_i64_s_to_f64"
  | .convert_i64_u_to_f64 => "convert_i64_u_to_f64"
  | .eqz_i32 => "eqz_i32"
  | .nez_i32 => "nez_i32"
  | .eq_i32 => "eq_i32"
  | .ne_i32 => "ne_i32"
  | .lt_i32_s => "lt_i32_s"
  | .lt_i32_u => "lt_i32_u"
  | .gt_i32_s => "gt_i32_s"
  | .gt_i32_u => "gt_i32_u"
  | .le_i32_s => "le_i32_s"
  | .le_i32_u => "le_i32_u"
  | .ge_i32_s => "ge_i32_s"
  | .ge_i32_u => "ge_i32_u"
  | .eqz_i64 => "eqz_i64"
  | .nez_i64 => "nez_i64"
  | .eq_i64 => "eq_i64"
  | .ne_i64 => "ne_i64"
  | .lt_i64_s => "lt_i64_s"
  | .lt_i64_u => "lt_i64_u"
  | .gt_i64_s => "gt_i64_s"
  | .gt_i64_u => "gt_i64_u"
  | .le_i64_s => "le_i64_s"
  | .le_i64_u => "le_i64_u"
  | .ge_i64_s => "ge_i64_s"
  | .ge_i64_u => "ge_i64_u"
  | .eq_f32 => "eq_f32"
  | .ne_f32 => "ne_f32"
  | .lt_f32 => "lt_f32"
  | .gt_f32 => "gt_f32"
  | .le_f32 => "le_f32"
  | .ge_f32 => "ge_f32"
  | .eq_f64 => "eq_f64"
  | .ne_f64 => "ne_f64"
  | .lt_f64 => "lt_f64"
  | .gt_f64 => "gt_f64"
  | .le_f64 => "le_f64"
  | .ge_f64 => "ge_f64"
  | .end_ => "end"
  | .block => "block"
  | .break_ => "break"
  | .recur => "recur"
  | .block_alt => "block_alt"
  | .break_alt => "break_alt"
  | .block_nez => "block_nez"
  | .call => "call"
  | .call_dynamic => "call_dynamic"
  | .envcall => "envcall"
  | .syscall => "syscall"
  | .extcall => "extcall"
  | .memory_allocate => "memory_allocate"
  | .memory_resize => "memory_resize"
  | .memory_free => "memory_free"
  | .memory_fill => "memory_fill"
  | .memory_copy => "memory_copy"
  | .terminate => "terminate"
  | .get_function => "get_function"
  | .get_data => "get_data"
  | .host_addr_function => "host_addr_function"
  | .host_addr_function_dynamic => "host_addr_function_dynamic"
  | .host_addr_data => "host_addr_data"
  | .host_addr_data_extend => "host_addr_data_extend"
  | .host_addr_data_dynamic => "host_addr_data_dynamic"

set_option maxHeartbeats 2000000 in
/-- `Opcode::from_name` from `src/opcode.rs`; the `panic!` on an unknown
name is embedded as `none`. -/
def from_name (name : String) : Option Opcode :=
  match name with
  | "nop" => some .nop
  | "imm_i32" => some .imm_i32
  | "imm_i64" => some .imm_i64
  | "imm_f32" => some .imm_f32
  | "imm_f64" => some .imm_f64
  | "local_load_i64" => some .local_load_i64
  | "local_load_i32_s" => some .local_load_i32_s
  | "local_load_i32_u" => some .local_load_i32_u
  | "local_load_i16_s" => some .local_load_i16_s
  | "local_load_i16_u" => some .local_load_i16_u
  | "local_load_i8_s" => some .local_load_i8_s
  | "local_load_i8_u" => some .local_load_i8_u
  | "local_load_f64" => some .local_load_f64
  | "local_load_f32" => some .local_load_f32
  | "local_store_i64" => some .local_store_i64
  | "local_store_i32" => some .local_store_i32
  | "local_store_i16" => some .local_store_i16
  | "local_store_i8" => some .local_store_i8
  | "local_store_f64" => some .local_store_f64
  | "local_store_f32" => some .local_store_f32
  | "data_load_i64" => some .data_load_i64
  | "data_load_i32_s" => some .data_load_i32_s
  | "data_load_i32_u" => some .data_load_i32_u
  | "data_load_i16_s" => some .data_load_i16_s
  | "data_load_i16_u" => some .data_load_i16_u
  | "data_load_i8_s" => some .data_load_i8_s
  | "data_load_i8_u" => some .data_load_i8_u
  | "data_load_f64" => some .data_load_f64
  | "data_load_f32" => some .data_load_f32
  | "data_store_i64" => some .data_store_i64
  | "data_store_i32" => some .data_store_i32
  | "data_store_i16" => some .data_store_i16
  | "data_store_i8" => some .data_store_i8
  | "data_store_f64" => some .data_store_f64
  | "data_store_f32" => some .data_store_f32
  | "data_load_extend_i64" => some .data_load_extend_i64
  | "data_load_extend_i32_s" => some .data_load_extend_i32_s
  | "data_load_extend_i32_u" => some .data_load_extend_i32_u
  | "data_load_extend_i16_s" => some .data_load_extend_i16_s
  | "data_load_extend_i16_u" => some .data_load_extend_i16_u
  | "data_load_extend_i8_s" => some .data_load_extend_i8_s
  | "data_load_extend_i8_u" => some .data_load_extend_i8_u
  | "data_load_extend_f64" => some .data_load_extend_f64
  | "data_load_extend_f32" => some .data_load_extend_f32
  | "data_store_extend_i64" => some .data_store_extend_i64
  | "data_store_extend_i32" => some .data_store_extend_i32
  | "data_store_extend_i16" => some .data_store_extend_i16
  | "data_store_extend_i8" => some .data_store_extend_i8
  | "data_store_extend_f64" => some .data_store_extend_f64
  | "data_store_extend_f32" => some .data_store_extend_f32
  | "data_load_dynamic_i64" => some .data_load_dynamic_i64
  | "data_load_dynamic_i32_s" => some .data_load_dynamic_i32_s
  | "data_load_dynamic_i32_u" => some .data_load_dynamic_i32_u
  | "data_load_dynamic_i16_s" => some .data_load_dynamic_i16_s
  | "data_load_dynamic_i16_u" => some .data_load_dynamic_i16_u
  | "data_load_dynamic_i8_s" => some .data_load_dynamic_i8_s
  | "data_load_dynamic_i8_u" => some .data_load_dynamic_i8_u
  | "data_load_dynamic_f64" => some .data_load_dynamic_f64
  | "data_load_dynamic_f32" => some .data_load_dynamic_f32
  | "data_store_dynamic_i64" => some .data_store_dynamic_i64
  | "data_store_dynamic_i32" => some .data_store_dynamic_i32
  | "data_store_dynamic_i16" => some .data_store_dynamic_i16
  | "data_store_dynamic_i8" => some .data_store_dynamic_i8
  | "data_store_dynamic_f64" => some .data_store_dynamic_f64
  | "data_store_dynamic_f32" => some .data_store_dynamic_f32
  | "add_i32" => some .add_i32
  | "sub_i32" => some .sub_i32
  | "add_imm_i32" => some .add_imm_i32
  | "sub_imm_i32" => some .sub_imm_i32
  | "mul_i32" => some .mul_i32
  | "div_i32_s" => some .div_i32_s
  | "div_i32_u" => some .div_i32_u
  | "rem_i32_s" => some .rem_i32_s
  | "rem_i32_u" => some .rem_i32_u
  | "add_i64" => some .add_i64
  | "sub_i64" => some .sub_i64
  | "add_imm_i64" => some .add_imm_i64
  | "sub_imm_i64" => some .sub_imm_i64
  | "mul_i64" => some .mul_i64
  | "div_i64_s" => some .div_i64_s
  | "div_i64_u" => some .div_i64_u
  | "rem_i64_s" => some .rem_i64_s
  | "rem_i64_u" => some .rem_i64_u
  | "add_f32" => some .add_f32
  | "sub_f32" => some .sub_f32
  | "mul_f32" => some .mul_f32
  | "div_f32" => some .div_f32
  | "add_f64" => some .add_f64
  | "sub_f64" => some .sub_f64
  | "mul_f64" => some .mul_f64
  | "div_f64" => some .div_f64
  | "and" => some .and
  | "or" => some .or
  | "xor" => some .xor
  | "not" => some .not
  | "count_leading_zeros_i32" => some .count_leading_zeros_i32
  | "count_leading_ones_i32" => some .count_leading_ones_i32
  | "count_trailing_zeros_i32" => some .count_trailing_zeros_i32
  | "count_ones_i32" => some .count_ones_i32
  | "shift_left_i32" => some .shift_left_i32
  | "shift_right_i32_s" => some .shift_right_i32_s
  | "shift_right_i32_u" => some .shift_right_i32_u
  | "rotate_left_i32" => some .rotate_left_i32
  | "rotate_right_i32" => some .rotate_right_i32
  | "count_leading_zeros_i64" => some .count_leading_zeros_i64
  | "count_leading_ones_i64" => some .count_leading_ones_i64
  | "count_trailing_zeros_i64" => some .count_trailing_zeros_i64
  | "count_ones_i64" => some .count_ones_i64
  | "shift_left_i64" => some .shift_left_i64
  | "shift_right_i64_s" => some .shift_right_i64_s
  | "shift_right_i64_u" => some .shift_right_i64_u
  | "rotate_left_i64" => some .rotate_left_i64
  | "rotate_right_i64" => some .rotate_right_i64
  | "abs_i32" => some .abs_i32
  | "neg_i32" => some .neg_i32
  | "abs_i64" => some .abs_i64
  | "neg_i64" => some .neg_i64
  | "abs_f32" => some .abs_f32
  | "neg_f32" => some .neg_f32
  | "copysign_f32" => some .copysign_f32
  | "sqrt_f32" => some .sqrt_f32
  | "min_f32" => some .min_f32
  | "max_f32" => some .max_f32
  | "ceil_f32" => some .ceil_f32
  | "floor_f32" => some .floor_f32
  | "round_half_away_from_zero_f32" => some .round_half_away_from_zero_f32
  | "round_half_to_even_f32" => some .round_half_to_even_f32
  | "trunc_f32" => some .trunc_f32
  | "fract_f32" => some .fract_f32
  | "cbrt_f32" => some .cbrt_f32
  | "exp_f32" => some .exp_f32
  | "exp2_f32" => some .exp2_f32
  | "ln_f32" => some .ln_f32
  | "log2_f32" => some .log2_f32
  | "log10_f32" => some .log10_f32
  | "sin_f32" => some .sin_f32
  | "cos_f32" => some .cos_f32
  | "tan_f32" => some .tan_f32
  | "asin_f32" => some .asin_f32
  | "acos_f32" => some .acos_f32
  | "atan_f32" => some .atan_f32
  | "pow_f32" => some .pow_f32
  | "log_f32" => some .log_f32
  | "abs_f64" => some .abs_f64
  | "neg_f64" => some .neg_f64
  | "copysign_f64" => some .copysign_f64
  | "sqrt_f64" => some .sqrt_f64
  | "min_f64" => some .min_f64
  | "max_f64" => some .max_f64
  | "ceil_f64" => some .ceil_f64
  | "floor_f64" => some .floor_f64
  | "round_half_away_from_zero_f64" => some .round_half_away_from_zero_f64
  | "round_half_to_even_f64" => some .round_half_to_even_f64
  | "trunc_f64" => some .trunc_f64
  | "fract_f64" => some .fract_f64
  | "cbrt_f64" => some .cbrt_f64
  | "exp_f64" => some .exp_f64
  | "exp2_f64" => some .exp2_f64
  | "ln_f64" => some .ln_f64
  | "log2_f64" => some .log2_f64
  | "log10_f64" => some .log10_f64
  | "sin_f64" => some .sin_f64
  | "cos_f64" => some .cos_f64
  | "tan_f64" => some .tan_f64
  | "asin_f64" => some .asin_f64
  | "acos_f64" => some .acos_f64
  | "atan_f64" => some .atan_f64
  | "pow_f64" => some .pow_f64
  | "log_f64" => some .log_f64
  | "truncate_i64_to_i32" => some .truncate_i64_to_i32
  | "extend_i32_s_to_i64" => some .extend_i32_s_to_i64
  | "extend_i32_u_to_i64" => some .extend_i32_u_to_i64
  | "demote_f64_to_f32" => some .demote_f64_to_f32
  | "promote_f32_to_f64" => some .promote_f32_to_f64
  | "convert_f32_to_i32_s" => some .convert_f32_to_i32_s
  | "convert_f32_to_i32_u" => some .convert_f32_to_i32_u
  | "convert_f64_to_i32_s" => some .convert_f64_to_i32_s
  | "convert_f64_to_i32_u" => some .convert_f64_to_i32_u
  | "convert_f32_to_i64_s" => some .convert_f32_to_i64_s
  | "convert_f32_to_i64_u" => some .convert_f32_to_i64_u
  | "convert_f64_to_i64_s" => some .convert_f64_to_i64_s
  | "convert_f64_to_i64_u" => some .convert_f64_to_i64_u
  | "convert_i32_s_to_f32" => some .convert_i32_s_to_f32
  | "convert_i32_u_to_f32" => some .convert_i32_u_to_f32
  | "convert_i64_s_to_f32" => some .convert_i64_s_to_f32
  | "convert_i64_u_to_f32" => some .convert_i64_u_to_f32
  | "convert_i32_s_to_f64" => some .convert_i32_s_to_f64
  | "convert_i32_u_to_f64" => some .convert_i32_u_to_f64
  | "convert_i64_s_to_f64" => some .convert_i64_s_to_f64
  | "convert_i64_u_to_f64" => some .convert_i64_u_to_f64
  | "eqz_i32" => some .eqz_i32
  | "nez_i32" => some .nez_i32
  | "eq_i32" => some .eq_i32
  | "ne_i32" => some .ne_i32
  | "lt_i32_s" => some .lt_i32_s
  | "lt_i32_u" => some .lt_i32_u
  | "gt_i32_s" => some .gt_i32_s
  | "gt_i32_u" => some .gt_i32_u
  | "le_i32_s" => some .le_i32_s
  | "le_i32_u" => some .le_i32_u
  | "ge_i32_s" => some .ge_i32_s
  | "ge_i32_u" => some .ge_i32_u
  | "eqz_i64" => some .eqz_i64
  | "nez_i64" => some .nez_i64
  | "eq_i64" => some .eq_i64
  | "ne_i64" => some .ne_i64
  | "lt_i64_s" => some .lt_i64_s
  | "lt_i64_u" => some .lt_i64_u
  | "gt_i64_s" => some .gt_i64_s
  | "gt_i64_u" => some .gt_i64_u
  | "le_i64_s" => some .le_i64_s
  | "le_i64_u" => some .le_i64_u
  | "ge_i64_s" => some .ge_i64_s
  | "ge_i64_u" => some .ge_i64_u
  | "eq_f32" => some .eq_f32
  | "ne_f32" => some .ne_f32
  | "lt_f32" => some .lt_f32
  | "gt_f32" => some .gt_f32
  | "le_f32" => some .le_f32
  | "ge_f32" => some .ge_f32
  | "eq_f64" => some .eq_f64
  | "ne_f64" => some .ne_f64
  | "lt_f64" => some .lt_f64
  | "gt_f64" => some .gt_f64
  | "le_f64" => some .le_f64
  | "ge_f64" => some .ge_f64
  | "end" => some .end_
  | "block" => some .block
  | "break" => some .break_
  | "recur" => some .recur
  | "block_alt" => some .block_alt
  | "break_alt" => some .break_alt
  | "block_nez" => some .block_nez
  | "call" => some .call
  | "call_dynamic" => some .call_dynamic
  | "envcall" => some .envcall
  | "syscall" => some .syscall
  | "extcall" => some .extcall
  | "memory_allocate" => some .memory_allocate
  | "memory_resize" => some .memory_resize
  | "memory_free" => some .memory_free
  | "memory_fill" => some .memory_fill
  | "memory_copy" => some .memory_copy
  | "terminate" => some .terminate
  | "get_function" => some .get_function
  | "get_data" => some .get_data
  | "host_addr_function" => some .host_addr_function
  | "host_addr_function_dynamic" => some .host_addr_function_dynamic
  | "host_addr_data" => some .host_addr_data
  | "host_addr_data_extend" => some .host_addr_data_extend
  | "host_addr_data_dynamic" => some .host_addr_data_dynamic
  | _ => none

/-! ## Instruction encoding (§3, §6 of the spec; the instruction-encoding
comment table of `src/opcode.rs`).

The encoder/decoder themselves are not in `src/` (the crate carries only the
opcode table and the layout contract in comments), so they are modelled from
the spec here.  The bytecode stream is represented at the granularity of its
16-bit units: every layout in the contract table is made of 16-bit cells
(opcode, i16 parameter, padding, and the two halves of an i32 parameter,
least-significant half first). -/

/-- Width of one instruction parameter: i16 or i32. -/
inductive ParamWidth where
  | i16
  | i32
  deriving DecidableEq, Repr

/-- Modelled from the spec: a parameter value fits its declared width. -/
def paramFits : ParamWidth → Nat → Bool
  | .i16, p => p < 2 ^ 16
  | .i32, p => p < 2 ^ 32

/-- Modelled from the spec: all parameters of a list fit the layout,
and the arity matches. -/
def paramsFit : List ParamWidth → List Nat → Bool
  | [], [] => true
  | w :: ws, p :: ps => paramFits w p && paramsFit ws ps
  | _, _ => false

/-- Modelled from the spec: serialize one parameter into 16-bit units; an
i32 parameter is split into its low and high 16-bit halves. -/
def serializeParam : ParamWidth → Nat → List Nat
  | .i16, p => [p]
  | .i32, p => [p % 2 ^ 16, p / 2 ^ 16]

/-- Modelled from the spec: serialize a parameter list against a layout. -/
def serializeParams : List ParamWidth → List Nat → List Nat
  | w :: ws, p :: ps => serializeParam w p ++ serializeParams ws ps
  | _, _ => []

/-- Modelled from the spec: a 16-bit padding unit sits between the opcode
and the first parameter exactly when that parameter is an i32 (the layouts
`[opcode | padding | i32 ...]` of the contract table). -/
def needsPadding : List ParamWidth → Bool
  | .i32 :: _ => true
  | _ => false

/-- Modelled from the spec: encode an instruction as opcode unit, optional
padding unit, then the serialized parameters. -/
def encodeInstruction (opcode : Nat) (layout : List ParamWidth) (params : List Nat) :
    List Nat :=
  opcode :: ((if needsPadding layout then [0] else []) ++ serializeParams layout params)

/-- Modelled from the spec: parse the parameters of a layout from the front
of a unit stream, returning the values and the remaining stream. -/
def parseParams : List ParamWidth → List Nat → Option (List Nat × List Nat)
  | [], units => some ([], units)
  | .i16 :: ws, u :: units =>
    (parseParams ws units).map fun r => (u :: r.1, r.2)
  | .i32 :: ws, lo :: hi :: units =>
    (parseParams ws units).map fun r => ((lo + 2 ^ 16 * hi) :: r.1, r.2)
  | _, _ => none

/-- Modelled from the spec: decode one instruction from a unit stream,
driven solely by the opcode's entry in the static layout table; fails when
the opcode is unassigned or the stream is shorter than the declared
length. -/
def decodeInstruction (table : Nat → Option (List ParamWidth)) (units : List Nat) :
    Option (Nat × List Nat × List Nat) :=
  match units with
  | [] => none
  | opcode :: rest =>
    match table opcode with
    | none => none
    | some layout =>
      let body := if needsPadding layout then rest.drop 1 else rest
      (parseParams layout body).map fun r => (opcode, r.1, r.2)

/-! ## Signed 32-bit remainder (§4.2 of the spec; the remainder comment
block of `src/opcode.rs` under `rem_i32_s`). -/

/-- Modelled from the spec: the executor of `rem_i32_s` is not in `src/`;
the comment block in `src/opcode.rs` defines the operation as
`remainder(a, b) = a - b * trunc(a / b)` on signed 32-bit operands, with
`trunc` rounding toward zero.  Division by zero has no defined result. -/
def rem_i32_s (a b : Int) : Option Int :=
  if b = 0 then none else some (a - b * Int.tdiv a b)

/-! ## Control-flow state machine (§4.4 of the spec).

The interpreter is not in `src/`; the state machine is modelled from the
spec's transition descriptions.  A state is an instruction pointer (a byte
address), a LIFO chain of frames (head = the active frame), and one operand
stack (head = top).  Each frame records whether it is a function frame, its
declared parameter and result arity, its local-variable slots, and the
operand-stack height at its creation (the frame boundary). -/

/-- A stack frame of the modelled VM. -/
structure Frame where
  isFunction : Bool
  paramCount : Nat
  resultCount : Nat
  locals : List Nat
  boundary : Nat
  deriving DecidableEq, Repr

/-- An execution state of the modelled VM. -/
structure VMState where
  ip : Nat
  frames : List Frame
  operands : List Nat
  deriving DecidableEq, Repr

/-- Byte size of the `end` instruction: 16 bits, no parameters. -/
def END_INST_SIZE : Nat := 2

/-- Modelled from the spec: `end` pops the current frame, moves the top
`resultCount` operands below the frame boundary (preserving them on the
now-shorter stack), and resumes at the instruction following the `end`. -/
def stepEnd (s : VMState) : Option VMState :=
  match s.frames with
  | [] => none
  | f :: rest =>
    some { ip := s.ip + END_INST_SIZE
           frames := rest
           operands := s.operands.take f.resultCount ++
             s.operands.drop (s.operands.length - f.boundary) }

/-- Modelled from the spec: `break(layers, next_inst_offset)` pops
`layers + 1` frames, moves the operands matching the target frame's declared
result arity out above the collapsed frames, and jumps to
`current_address + next_inst_offset`. -/
def stepBreak (layers next_inst_offset : Nat) (s : VMState) : Option VMState :=
  (s.frames[layers]?).map fun target =>
    { ip := s.ip + next_inst_offset
      frames := s.frames.drop (layers + 1)
      operands := s.operands.take target.resultCount ++
        s.operands.drop (s.operands.length - target.boundary) }

/-- Modelled from the spec: `recur(layers, start_inst_offset)` pops `layers`
frames — the target frame itself is reused, not destroyed — moves the top
operands matching the target's parameter arity into its first local slots,
resets the other locals of that frame to zero, and jumps to
`current_address - start_inst_offset`. -/
def stepRecur (layers start_inst_offset : Nat) (s : VMState) : Option VMState :=
  (s.frames[layers]?).map fun target =>
    let args := s.operands.take target.paramCount
    { ip := s.ip - start_inst_offset
      frames :=
        { target with
            locals := args.reverse ++
              List.replicate (target.locals.length - target.paramCount) 0 } ::
          s.frames.drop (layers + 1)
      operands := s.operands.drop (s.operands.length - target.boundary) }

/-- The active frame exists and is a function frame. -/
def currentFrameIsFunction (s : VMState) : Bool :=
  match s.frames with
  | f :: _ => f.isFunction
  | [] => false

/-- A sequence of self-targeting `recur` steps (`layers = 0`), one per
listed `start_inst_offset`. -/
def iterRecurSelf : List Nat → VMState → Option VMState
  | [], s => some s
  | off :: offs, s =>
    match stepRecur 0 off s with
    | some t => iterRecurSelf offs t
    | none => none

/-! ## Supporting lemmas -/

/-- Truncating remainder of a nonpositive dividend is nonpositive. -/
theorem tmod_nonpos_of_nonpos (a b : Int) (h : a ≤ 0) : Int.tmod a b ≤ 0 := by
  cases a with
  | ofNat m =>
    rw [Int.ofNat_eq_coe] at h
    have hm : m = 0 := by omega
    subst hm
    simp
  | negSucc m =>
    cases b with
    | ofNat n => exact Int.neg_nonpos_of_nonneg (Int.ofNat_nonneg _)
    | negSucc n => exact Int.neg_nonpos_of_nonneg (Int.ofNat_nonneg _)

/-- Parsing is a left inverse of serialization on any layout. -/
theorem parseParams_serializeParams (layout : List ParamWidth) (params : List Nat)
    (rest : List Nat) (h : paramsFit layout params = true) :
    parseParams layout (serializeParams layout params ++ rest) = some (params, rest) := by
  induction layout generalizing params with
  | nil =>
    cases params with
    | nil => simp [serializeParams, parseParams]
    | cons p ps => simp [paramsFit] at h
  | cons w ws ih =>
    cases params with
    | nil => simp [paramsFit] at h
    | cons p ps =>
      rw [paramsFit, Bool.and_eq_true] at h
      cases w with
      | i16 =>
        simp [serializeParams, serializeParam, parseParams, ih ps h.2]
      | i32 =>
        simp [serializeParams, serializeParam, parseParams, ih ps h.2]
        omega

/-! ## The claims -/

/-- C1: every variant of the `Opcode` enum has a 16-bit discriminant in the
half-open interval `[0x0000, 0x0C00)`, i.e. strictly below
`MAX_OPCODE_NUMBER`. -/
theorem opcodeValue_lt_max (op : Opcode) : opcodeValue op < MAX_OPCODE_NUMBER := by
  cases op <;> decide

/-- C2: evaluation at the failing input of the grouping claim.  The variant
`terminate` is declared under the `Machine` category header of
`src/opcode.rs`, yet its discriminant `0x0a05` carries the `Memory`
category's high byte `0x0a`: it collides with the memory instruction
`memory_fill` and differs from the machine instruction `get_function`. -/
theorem terminate_high_byte_collision :
    sectionOf Opcode.terminate = OpcodeSection.machine ∧
    sectionOf Opcode.memory_fill = OpcodeSection.memory ∧
    highByte (opcodeValue Opcode.terminate) = 0x0a ∧
    highByte (opcodeValue Opcode.memory_fill) = 0x0a ∧
    sectionOf Opcode.get_function = OpcodeSection.machine ∧
    highByte (opcodeValue Opcode.get_function) = 0x0b := by
  refine ⟨rfl, rfl, by decide, by decide, rfl, by decide⟩

/-- C3: evaluation at the failing input of the name round-trip claim.
`get_name` maps `local_load_i64` to the string `"local_load_64"` (the `i` is
missing in the source), and `from_name` has no arm for that string, so the
Rust code reaches its `panic!` (embedded here as `none`) instead of
returning `local_load_i64`. -/
theorem from_name_get_name_local_load_i64 :
    get_name Opcode.local_load_i64 = "local_load_64" ∧
    from_name (get_name Opcode.local_load_i64) = none := by
  exact ⟨rfl, by decide⟩

/-- C4: decoding the encoding of an instruction recovers exactly the opcode
and the parameter list, for every opcode present in the static layout table
and every parameter list admissible for its layout, with any trailing
stream content preserved. -/
theorem decode_encode (table : Nat → Option (List ParamWidth)) (opcode : Nat)
    (layout : List ParamWidth) (params : List Nat) (rest : List Nat)
    (htab : table opcode = some layout) (hfit : paramsFit layout params = true) :
    decodeInstruction table (encodeInstruction opcode layout params ++ rest) =
      some (opcode, params, rest) := by
  unfold encodeInstruction decodeInstruction
  simp only [List.cons_append, htab]
  by_cases hp : needsPadding layout
  · simp [hp, parseParams_serializeParams _ _ _ hfit]
  · simp [hp, parseParams_serializeParams _ _ _ hfit]

/-- C4 witness: the `imm_i32` opcode `0x0101` with its one-i32 layout and a
concrete parameter. -/
theorem decode_encode_witness :
    ((fun v => if v = 0x0101 then some [ParamWidth.i32] else none) 0x0101 =
      some [ParamWidth.i32]) ∧
    paramsFit [ParamWidth.i32] [5] = true ∧
    decodeInstruction (fun v => if v = 0x0101 then some [ParamWidth.i32] else none)
      (encodeInstruction 0x0101 [ParamWidth.i32] [5] ++ []) = some (0x0101, [5], []) :=
  ⟨by decide, by decide,
    decode_encode (fun v => if v = 0x0101 then some [ParamWidth.i32] else none)
      0x0101 [ParamWidth.i32] [5] [] (by decide) (by decide)⟩

/-- C5: a floating-point load fails exactly when the exponent field of the
bit pattern is all-ones, and succeeds preserving the bit pattern exactly on
every other pattern, for f32 and f64 alike. -/
theorem load_float_validity (bits32 bits64 : Nat)
    (_h32 : bits32 < 2 ^ 32) (_h64 : bits64 < 2 ^ 64) :
    (load_f32 bits32 = none ↔ f32_exponent bits32 = 0xff) ∧
    (f32_exponent bits32 ≠ 0xff → load_f32 bits32 = some bits32) ∧
    (load_f64 bits64 = none ↔ f64_exponent bits64 = 0x7ff) ∧
    (f64_exponent bits64 ≠ 0x7ff → load_f64 bits64 = some bits64) := by
  have e32 : f32_exponent bits32 < 2 ^ 8 := Nat.mod_lt _ (by norm_num)
  have e64 : f64_exponent bits64 < 2 ^ 11 := Nat.mod_lt _ (by norm_num)
  unfold load_f32 load_f64 check_f32 check_f64
  refine ⟨?_, ?_, ?_, ?_⟩ <;> split_ifs <;> simp_all <;> omega

/-- C5 witness: the zero bit pattern (positive zero) loads successfully. -/
theorem load_float_validity_witness :
    (0 : Nat) < 2 ^ 32 ∧ (0 : Nat) < 2 ^ 64 ∧
    ((load_f32 0 = none ↔ f32_exponent 0 = 0xff) ∧
      (f32_exponent 0 ≠ 0xff → load_f32 0 = some 0) ∧
      (load_f64 0 = none ↔ f64_exponent 0 = 0x7ff) ∧
      (f64_exponent 0 ≠ 0x7ff → load_f64 0 = some 0)) :=
  ⟨by norm_num, by norm_num, load_float_validity 0 0 (by norm_num) (by norm_num)⟩

/-- C6: on signed 32-bit operands with a nonzero divisor, `rem_i32_s`
computes the truncating-division remainder `a - b * trunc(a / b)`, whose
sign follows the dividend; in particular `rem_i32_s (-5) 3 = -2` and
`rem_i32_s 5 (-3) = 2`. -/
theorem rem_i32_s_spec :
    (∀ a b : Int, -(2 ^ 31) ≤ a → a < 2 ^ 31 → -(2 ^ 31) ≤ b → b < 2 ^ 31 →
      b ≠ 0 →
      ∃ r, rem_i32_s a b = some r ∧ r = a - b * Int.tdiv a b ∧
        (0 ≤ a → 0 ≤ r) ∧ (a ≤ 0 → r ≤ 0)) ∧
    rem_i32_s (-5) 3 = some (-2) ∧ rem_i32_s 5 (-3) = some 2 := by
  refine ⟨?_, by decide, by decide⟩
  intro a b _ _ _ _ hb
  refine ⟨a - b * Int.tdiv a b, by simp [rem_i32_s, hb], rfl, ?_, ?_⟩
  · intro ha
    have h := Int.tmod_nonneg b ha
    rwa [Int.tmod_def] at h
  · intro ha
    have h := tmod_nonpos_of_nonpos a b ha
    rwa [Int.tmod_def] at h

/-- C6 witness: the dividend `-5` and divisor `3` of the claim. -/
theorem rem_i32_s_spec_witness :
    (-(2 ^ 31) ≤ (-5 : Int) ∧ (-5 : Int) < 2 ^ 31 ∧
      -(2 ^ 31) ≤ (3 : Int) ∧ (3 : Int) < 2 ^ 31 ∧ (3 : Int) ≠ 0) ∧
    (∃ r, rem_i32_s (-5) 3 = some r ∧ r = -5 - 3 * Int.tdiv (-5) 3 ∧
      (0 ≤ (-5 : Int) → 0 ≤ r) ∧ ((-5 : Int) ≤ 0 → r ≤ 0)) :=
  ⟨⟨by norm_num, by norm_num, by norm_num, by norm_num, by norm_num⟩,
    rem_i32_s_spec.1 (-5) 3 (by norm_num) (by norm_num) (by norm_num)
      (by norm_num) (by norm_num)⟩

/-- C7: in every execution state, executing `end` is the same state
transition as executing `break` with `layers = 0` and `next_inst_offset`
equal to the byte size of the `end` instruction: both pop the current
frame, preserve the top result-arity operands on the shorter stack, and
resume at the instruction following the `end`. -/
theorem stepEnd_eq_stepBreak (s : VMState) :
    stepEnd s = stepBreak 0 END_INST_SIZE s := by
  cases s with
  | mk ip frames operands =>
    cases frames with
    | nil => rfl
    | cons f rest => simp [stepEnd, stepBreak]

/-- C8: a sequence of `recur` steps targeting the function frame itself
(`layers = 0` with the active frame a function frame) leaves the
frame-chain depth unchanged, for an arbitrary number of iterations: no new
frame is allocated and the call stack does not grow. -/
theorem recur_self_preserves_depth (offs : List Nat) (s s' : VMState)
    (hfn : currentFrameIsFunction s = true)
    (hrun : iterRecurSelf offs s = some s') :
    s'.frames.length = s.frames.length := by
  induction offs generalizing s with
  | nil =>
    simp only [iterRecurSelf, Option.some.injEq] at hrun
    rw [← hrun]
  | cons off offs ih =>
    cases s with
    | mk ip frames operands =>
      cases frames with
      | nil => simp [currentFrameIsFunction] at hfn
      | cons f rest =>
        rw [currentFrameIsFunction] at hfn
        rw [iterRecurSelf] at hrun
        simp only [stepRecur, List.getElem?_cons_zero, Option.map_some',
          List.drop_succ_cons, List.drop_zero] at hrun
        have hlen := ih _ (by rw [currentFrameIsFunction]; exact hfn) hrun
        simpa using hlen

/-- C8 witness: a single function frame driven through two self-recur
steps. -/
theorem recur_self_preserves_depth_witness :
    currentFrameIsFunction ⟨8, [⟨true, 0, 0, [], 0⟩], []⟩ = true ∧
    (VMState.frames ⟨0, [⟨true, 0, 0, [], 0⟩], []⟩).length =
      (VMState.frames ⟨8, [⟨true, 0, 0, [], 0⟩], []⟩).length :=
  ⟨rfl, recur_self_preserves_depth [4, 4] ⟨8, [⟨true, 0, 0, [], 0⟩], []⟩
    ⟨0, [⟨true, 0, 0, [], 0⟩], []⟩ rfl (by decide)⟩

/-- C9: `from_u64` recovers every `EffectiveVersion` from `to_u64`'s
packing of `major`, `minor`, `patch` into disjoint 16-bit fields. -/
theorem from_u64_to_u64 (v : EffectiveVersion)
    (hmaj : v.major < 2 ^ 16) (hmin : v.minor < 2 ^ 16) (hpat : v.patch < 2 ^ 16) :
    from_u64 (to_u64 v) = v := by
  obtain ⟨M, m, p⟩ := v
  simp only at hmaj hmin hpat
  have e1 : M <<< 16 ||| m = 2 ^ 16 * M + m := by
    rw [Nat.shiftLeft_eq, Nat.mul_comm M (2 ^ 16)]
    exact (Nat.mul_add_lt_is_or hmin M).symm
  have e2 : (2 ^ 16 * M + m) <<< 16 ||| p = 2 ^ 16 * (2 ^ 16 * M + m) + p := by
    rw [Nat.shiftLeft_eq, Nat.mul_comm _ (2 ^ 16)]
    exact (Nat.mul_add_lt_is_or hpat _).symm
  have hmask : ∀ x : Nat, x &&& 0xffff = x % 2 ^ 16 := by
    intro x
    have h16 : (0xffff : Nat) = 2 ^ 16 - 1 := by norm_num
    rw [h16, Nat.and_pow_two_sub_one_eq_mod]
  simp only [to_u64, from_u64, e1, e2, hmask, Nat.shiftRight_eq_div_pow,
    EffectiveVersion.mk.injEq]
  refine ⟨?_, ?_, ?_⟩ <;> omega

/-- C9 witness: the version 1.2.3. -/
theorem from_u64_to_u64_witness :
    (1 : Nat) < 2 ^ 16 ∧ (2 : Nat) < 2 ^ 16 ∧ (3 : Nat) < 2 ^ 16 ∧
    from_u64 (to_u64 ⟨1, 2, 3⟩) = ⟨1, 2, 3⟩ :=
  ⟨by norm_num, by norm_num, by norm_num,
    from_u64_to_u64 ⟨1, 2, 3⟩ (by norm_num) (by norm_num) (by norm_num)⟩

/-- C10: `compatible` returns `Conflict` exactly when the major versions
differ, or the shared major version is zero and the minor versions differ;
in every other case it returns `Equals`, `GreaterThan` or `LessThan`. -/
theorem compatible_conflict_iff (a b : EffectiveVersion) :
    (compatible a b = VersionCompatibility.Conflict ↔
      (a.major ≠ b.major ∨ (a.major = 0 ∧ a.minor ≠ b.minor))) ∧
    (¬(a.major ≠ b.major ∨ (a.major = 0 ∧ a.minor ≠ b.minor)) →
      compatible a b = VersionCompatibility.Equals ∨
      compatible a b = VersionCompatibility.GreaterThan ∨
      compatible a b = VersionCompatibility.LessThan) := by
  unfold compatible
  split_ifs <;> simp_all

/-- C10 witness: identical versions with a nonzero major are not in
conflict. -/
theorem compatible_conflict_iff_witness :
    ¬((EffectiveVersion.mk 1 2 3).major ≠ (EffectiveVersion.mk 1 2 3).major ∨
      ((EffectiveVersion.mk 1 2 3).major = 0 ∧
        (EffectiveVersion.mk 1 2 3).minor ≠ (EffectiveVersion.mk 1 2 3).minor)) ∧
    (compatible ⟨1, 2, 3⟩ ⟨1, 2, 3⟩ = VersionCompatibility.Equals ∨
      compatible ⟨1, 2, 3⟩ ⟨1, 2, 3⟩ = VersionCompatibility.GreaterThan ∨
      compatible ⟨1, 2, 3⟩ ⟨1, 2, 3⟩ = VersionCompatibility.LessThan) :=
  ⟨by norm_num, (compatible_conflict_iff ⟨1, 2, 3⟩ ⟨1, 2, 3⟩).2 (by norm_num)⟩

end AncIsa
